import Mathlib

/-!
# Verification of the JetBrains MCP proxy core (src/index.ts)

A shallow embedding of the endpoint-resolution, change-notification and
request-forwarding logic of `src/index.ts`.  Network effects are modelled by
explicit oracles: a `fetch` on an endpoint URL either throws or yields an HTTP
reply (status code plus body for a GET probe; status code plus parsed JSON body
for the forwarding POST).  The two mutable module-level cells
(`cachedEndpoint`, `previousResponse`) are threaded explicitly, and calls to
`sendToolsChanged` are counted.
-/

namespace McpJetbrains

/-- A JavaScript thrown value as the `catch` blocks of `index.ts` see it:
either an `Error` instance (which always carries a `message` string) or some
other thrown value (no message available to `error.message`). -/
inductive Thrown where
  | jsError (message : String)
  | nonError
deriving DecidableEq, Repr

/-- Outcome of a `fetch` whose body is read with `res.text()`:
the promise either rejects (`thrown`) or resolves to a reply with an HTTP
status code and a body text. -/
inductive FetchOutcome where
  | thrown (e : Thrown)
  | reply (statusCode : Nat) (body : String)
deriving DecidableEq, Repr

/-- `res.ok` of the Fetch API: the status code lies in the range 200..299. -/
def res_ok (status : Nat) : Bool :=
  decide (200 ≤ status ∧ status ≤ 299)

/-- Whether a fetch outcome counts as a working probe in `testListTools`
(line 56-80): the fetch resolved and `res.ok` held.  Line-by-line,
`testListTools` returns `false` both on a rejected fetch (the `catch`) and on
a non-2xx status. -/
def fetchOk : FetchOutcome → Bool
  | .thrown _ => false
  | .reply status _ => res_ok status

/-- JavaScript truthiness of a `string | null` value, as used by
`if (process.env.IDE_PORT)` (line 93) and `if (!cachedEndpoint)` (line 187):
`null` and the empty string are falsy. -/
def jsTruthy : Option String → Bool
  | none => false
  | some s => s != ""

/-- The effect of one call of `testListTools` (lines 56-80) on the
`previousResponse` cell, together with its boolean return value and the number
of `sendToolsChanged` calls it made. -/
structure ProbeStep where
  works : Bool
  newPrev : Option String
  notifications : Nat
deriving DecidableEq, Repr

/-- `testListTools(endpoint)` of lines 56-80, with the fetch outcome for
`{endpoint}/mcp/list_tools` supplied as `outcome` and the current value of the
module-level `previousResponse` supplied as `prev`:

* a rejected fetch is caught and yields `false`, leaving `previousResponse`
  untouched (lines 76-79);
* a non-2xx reply yields `false`, leaving `previousResponse` untouched
  (lines 60-63);
* otherwise the body text is read; if `previousResponse !== null` and differs
  from it, `sendToolsChanged()` fires (lines 69-72); then
  `previousResponse = currentResponse` (line 73) and the call returns `true`. -/
def testListTools (prev : Option String) (outcome : FetchOutcome) : ProbeStep :=
  match outcome with
  | .thrown _ => ⟨false, prev, 0⟩
  | .reply status body =>
    if res_ok status then
      let notif : Nat :=
        match prev with
        | none => 0
        | some p => if p = body then 0 else 1
      ⟨true, some body, notif⟩
    else
      ⟨false, prev, 0⟩

/-- Endpoint URL construction `http://127.0.0.1:${port}/api`
(lines 95 and 107). -/
def endpointOf (port : String) : String :=
  "http://127.0.0.1:" ++ port ++ "/api"

/-- The result of one run of `findWorkingIDEEndpoint` (lines 89-122): the
returned endpoint or the thrown error message, the final value of
`previousResponse`, the total number of `sendToolsChanged` calls, and which
candidates were probed — `probedFixed` lists the port strings probed through
the `IDE_PORT` branch, `probedScan` the numeric ports probed by the scan
loop, in order. -/
structure ResolveOutcome where
  result : Except String String
  prev : Option String
  notifications : Nat
  probedFixed : List String
  probedScan : List Nat
deriving Repr

/-- The scan loop of `findWorkingIDEEndpoint` (lines 106-121) over a list of
candidate ports, plus the exhaustion epilogue (lines 118-121): probe each port
in order via `testListTools`, return the first candidate endpoint that works;
if the list is exhausted, set `previousResponse = ""` and throw
`"No working IDE endpoint found in range 63342-63352"`. -/
def scanPorts (net : String → FetchOutcome) : List Nat → Option String → ResolveOutcome
  | [], _ =>
    ⟨.error "No working IDE endpoint found in range 63342-63352", some "", 0, [], []⟩
  | port :: rest, prev =>
    let ep := endpointOf (toString port)
    let step := testListTools prev (net ep)
    if step.works then
      ⟨.ok ep, step.newPrev, step.notifications, [], [port]⟩
    else
      let r := scanPorts net rest step.newPrev
      ⟨r.result, r.prev, step.notifications + r.notifications, [],
        port :: r.probedScan⟩

/-- The inclusive scan range 63342..63352 of line 106. -/
def portRange : List Nat :=
  [63342, 63343, 63344, 63345, 63346, 63347, 63348, 63349, 63350, 63351, 63352]

/-- `findWorkingIDEEndpoint()` (lines 89-122).  `idePort` models
`process.env.IDE_PORT` (`none` = unset), `net` gives the fetch outcome per
endpoint URL, `prev` is the incoming `previousResponse`.

If `IDE_PORT` is truthy, exactly one candidate `http://127.0.0.1:{port}/api`
is probed: on success it is returned, on failure the function throws
`Specified IDE_PORT={port} but it is not responding correctly.` without
touching `previousResponse` and without scanning (lines 93-103).  Otherwise
the port range is scanned (lines 106-121). -/
def findWorkingIDEEndpoint (idePort : Option String) (net : String → FetchOutcome)
    (prev : Option String) : ResolveOutcome :=
  if jsTruthy idePort then
    let p := idePort.getD ""
    let ep := endpointOf p
    let step := testListTools prev (net ep)
    if step.works then
      ⟨.ok ep, step.newPrev, step.notifications, [p], []⟩
    else
      ⟨.error ("Specified IDE_PORT=" ++ p ++ " but it is not responding correctly."),
        step.newPrev, step.notifications, [p], []⟩
  else
    scanPorts net portRange prev

/-- The two module-level mutable cells of `index.ts`: `cachedEndpoint`
(line 31) and `previousResponse` (line 37). -/
structure ProxyState where
  cachedEndpoint : Option String
  previousResponse : Option String
deriving DecidableEq, Repr

/-- `updateIDEEndpoint()` (lines 128-137): run `findWorkingIDEEndpoint`; on
success assign the result to `cachedEndpoint`; on a thrown error catch it and
return normally, keeping the old `cachedEndpoint`.  Returns the new state and
the number of change notifications emitted during the resolution pass. -/
def updateIDEEndpoint (idePort : Option String) (net : String → FetchOutcome)
    (st : ProxyState) : ProxyState × Nat :=
  let r := findWorkingIDEEndpoint idePort net st.previousResponse
  match r.result with
  | .ok ep => (⟨some ep, r.prev⟩, r.notifications)
  | .error _ => (⟨st.cachedEndpoint, r.prev⟩, r.notifications)

/-- The IDE's JSON reply as destructured by
`const {status, error}: IDEResponse = await response.json()` (line 208).
The declared TypeScript union `IDEResponse` is the subset where exactly one
field is null, but the runtime destructuring accepts any pair. -/
structure IDEResp where
  status : Option String
  error : Option String
deriving DecidableEq, Repr

/-- The declared discriminated union `IDEResponse` of lines 15-25: either
`{status: string, error: null}` or `{status: null, error: string}`. -/
def isIDEUnion (r : IDEResp) : Prop :=
  (r.status ≠ none ∧ r.error = none) ∨ (r.status = none ∧ r.error ≠ none)

instance (r : IDEResp) : Decidable (isIDEUnion r) := by
  unfold isIDEUnion; infer_instance

/-- Outcome of the forwarding `fetch` POST plus the subsequent
`response.json()` parse in `handleToolCall`: the fetch promise may reject;
otherwise there is a status code, and reading/parsing the JSON body may itself
throw (`parsed = .error t`) or yield the destructured pair. -/
inductive CallOutcome where
  | fetchThrow (t : Thrown)
  | httpReply (statusCode : Nat) (parsed : Except Thrown IDEResp)

/-- The `CallToolResult` actually built by `handleToolCall`:
`content: [{type: "text", text}]` with `text : string | null`
(`status ?? error` can be null when both fields are) and the `isError` flag. -/
structure CallToolResult where
  text : Option String
  isError : Bool
deriving DecidableEq, Repr

/-- The `error.message`-or-fallback rule of the catch block (line 225):
an `Error` instance contributes its message, any other thrown value the
generic string. -/
def thrownMessage : Thrown → String
  | .jsError m => m
  | .nonError => "Unknown error"

/-- The `try` block of `handleToolCall` (lines 192-219): a rejected fetch
propagates the thrown value; a non-2xx status throws
`Response failed: {status}` (lines 202-205); a JSON parse failure propagates;
otherwise `isError = !!error` (truthy check: a null or empty `error` is
falsy) and `text = status ?? error` (nullish coalescing: only `null` falls
through to `error`). -/
def handleToolCallTry (outcome : CallOutcome) : Except Thrown CallToolResult :=
  match outcome with
  | .fetchThrow t => .error t
  | .httpReply status parsed =>
    if res_ok status then
      match parsed with
      | .error t => .error t
      | .ok r =>
        let isErr : Bool :=
          match r.error with
          | some e => e != ""
          | none => false
        let text : Option String :=
          match r.status with
          | some s => some s
          | none => r.error
        .ok ⟨text, isErr⟩
    else
      .error (.jsError ("Response failed: " ++ toString status))

/-- `handleToolCall(name, args)` (lines 185-230).  The guard
`if (!cachedEndpoint) throw new Error("No working IDE endpoint available.")`
(lines 187-190) sits *outside* the `try`, so it throws out of the function
(modelled as `.error`).  Everything thrown inside the `try` is caught and
converted to an `isError` result whose text is `error.message` for `Error`
instances and `"Unknown error"` otherwise (lines 220-229). -/
def handleToolCall (cached : Option String) (outcome : CallOutcome) :
    Except String CallToolResult :=
  if jsTruthy cached then
    match handleToolCallTry outcome with
    | .ok r => .ok r
    | .error t => .ok ⟨some (match t with | .jsError m => m | .nonError => "Unknown error"), true⟩
  else
    .error "No working IDE endpoint available."

/-- The `CallToolRequestSchema` handler (lines 235-245): it awaits
`handleToolCall` and rethrows anything it throws (lines 241-244), so to the
transport it behaves exactly as `handleToolCall`. -/
def callToolHandler (cached : Option String) (outcome : CallOutcome) :
    Except String CallToolResult :=
  handleToolCall cached outcome

/-! ## Basic lemmas about the probe -/

theorem testListTools_works (prev : Option String) (o : FetchOutcome) :
    (testListTools prev o).works = fetchOk o := by
  cases o with
  | thrown t => rfl
  | reply s b => by_cases h : res_ok s <;> simp [testListTools, fetchOk, h]

theorem testListTools_fail (prev : Option String) (o : FetchOutcome)
    (h : fetchOk o = false) : testListTools prev o = ⟨false, prev, 0⟩ := by
  cases o with
  | thrown t => rfl
  | reply s b =>
    simp only [fetchOk] at h
    simp [testListTools, h]

/-! ## Claims about the Request Forwarder (C1, C2, C8, C9) -/

/-- C1 counterexample: with the cached endpoint unresolved (`null`), the
forwarder does **not** short-circuit to an `isError` result — `handleToolCall`
throws `"No working IDE endpoint available."` (the guard sits outside its
`try`), and the `CallToolRequestSchema` handler rethrows it to the transport. -/
theorem handleToolCall_unresolved_throws :
    handleToolCall none (.fetchThrow .nonError) =
      .error "No working IDE endpoint available." ∧
    callToolHandler none (.fetchThrow .nonError) =
      .error "No working IDE endpoint available." :=
  ⟨rfl, rfl⟩

/-- C1 (amended): when the cached endpoint is unresolved (null or empty), the
forwarder throws `"No working IDE endpoint available."` and the transport
handler propagates that failure; whenever an endpoint is cached, every call
returns a well-formed result and no failure propagates. -/
theorem handleToolCall_total_when_resolved (cached : Option String)
    (outcome : CallOutcome) :
    (jsTruthy cached = false →
      callToolHandler cached outcome = .error "No working IDE endpoint available.") ∧
    (jsTruthy cached = true → ∃ r, callToolHandler cached outcome = .ok r) := by
  constructor
  · intro h
    simp [callToolHandler, handleToolCall, h]
  · intro h
    simp only [callToolHandler, handleToolCall, h, if_true]
    cases handleToolCallTry outcome with
    | ok r => exact ⟨r, rfl⟩
    | error t => exact ⟨_, rfl⟩

theorem handleToolCall_total_when_resolved_witness :
    ∃ r, callToolHandler (some "http://127.0.0.1:63342/api") (.fetchThrow .nonError) =
      .ok r :=
  (handleToolCall_total_when_resolved (some "http://127.0.0.1:63342/api")
    (.fetchThrow .nonError)).2 rfl

/-- C2 counterexample: the body `{status: null, error: ""}` belongs to the
declared union (`error` is a non-null string), yet `isError = !!error` is
`false` because the empty string is falsy — contradicting "isError is true
exactly when `error` is non-null". -/
theorem handleToolCall_empty_error_not_flagged :
    handleToolCall (some "http://127.0.0.1:63342/api")
        (.httpReply 200 (.ok ⟨none, some ""⟩)) =
      .ok ⟨some "", false⟩ ∧
    isIDEUnion ⟨none, some ""⟩ ∧ (some "" : Option String) ≠ none := by
  refine ⟨rfl, ?_, by simp⟩
  simp [isIDEUnion]

/-- C2 (amended): for a 2xx reply parsed as the declared union, the result
text is `status` when it is non-null and `error` otherwise, and `isError` is
true exactly when `error` is non-null **and non-empty** (the code computes
`!!error`, so an empty error string is not flagged). -/
theorem handleToolCall_union_parse_rule (cached : Option String) (status : Nat)
    (r : IDEResp) (hc : jsTruthy cached = true) (hs : res_ok status = true)
    (_hu : isIDEUnion r) :
    ∃ res, handleToolCall cached (.httpReply status (.ok r)) = .ok res ∧
      res.text = (match r.status with | some s => some s | none => r.error) ∧
      (res.isError = true ↔ ∃ e, r.error = some e ∧ e ≠ "") := by
  refine ⟨⟨(match r.status with | some s => some s | none => r.error),
           (match r.error with | some e => e != "" | none => false)⟩, ?_, rfl, ?_⟩
  · simp only [handleToolCall, hc, if_true, handleToolCallTry, hs]
  · cases he : r.error with
    | none => simp
    | some e =>
      by_cases h : e = "" <;> simp [h]

theorem handleToolCall_union_parse_rule_witness :
    ∃ res, handleToolCall (some "http://127.0.0.1:63342/api")
        (.httpReply 200 (.ok ⟨some "ok text", none⟩)) = .ok res ∧
      res.text = some "ok text" ∧
      (res.isError = true ↔
        ∃ e, (⟨some "ok text", none⟩ : IDEResp).error = some e ∧ e ≠ "") :=
  handleToolCall_union_parse_rule (some "http://127.0.0.1:63342/api") 200
    ⟨some "ok text", none⟩ rfl (by decide) (by simp [isIDEUnion])

/-- C8: every value thrown inside the forwarding `try` — be it by the fetch
itself or by the JSON body parse — is caught and turned into an
`isError = true` result whose text is the thrown `Error`'s message, or
`"Unknown error"` for a message-less thrown value. -/
theorem handleToolCall_catch_rule (cached : Option String) (t : Thrown)
    (status : Nat) (hc : jsTruthy cached = true) :
    handleToolCall cached (.fetchThrow t) = .ok ⟨some (thrownMessage t), true⟩ ∧
    (res_ok status = true →
      handleToolCall cached (.httpReply status (.error t)) =
        .ok ⟨some (thrownMessage t), true⟩) := by
  constructor
  · cases t <;> simp [handleToolCall, handleToolCallTry, hc, thrownMessage]
  · intro hs
    cases t <;> simp [handleToolCall, handleToolCallTry, hc, hs, thrownMessage]

theorem handleToolCall_catch_rule_witness :
    handleToolCall (some "http://127.0.0.1:63342/api")
        (.fetchThrow (.jsError "connect ECONNREFUSED")) =
      .ok ⟨some "connect ECONNREFUSED", true⟩ ∧
    handleToolCall (some "http://127.0.0.1:63342/api")
        (.httpReply 200 (.error .nonError)) =
      .ok ⟨some "Unknown error", true⟩ :=
  ⟨(handleToolCall_catch_rule (some "http://127.0.0.1:63342/api")
      (.jsError "connect ECONNREFUSED") 200 rfl).1,
   (handleToolCall_catch_rule (some "http://127.0.0.1:63342/api")
      .nonError 200 rfl).2 (by decide)⟩

/-- C9: a non-2xx HTTP status on the forwarding POST yields an
`isError = true` result whose text carries the status code
(`"Response failed: {status}"`). -/
theorem handleToolCall_http_failure (cached : Option String) (status : Nat)
    (parsed : Except Thrown IDEResp) (hc : jsTruthy cached = true)
    (hs : res_ok status = false) :
    handleToolCall cached (.httpReply status parsed) =
      .ok ⟨some ("Response failed: " ++ toString status), true⟩ := by
  simp [handleToolCall, handleToolCallTry, hc, hs]

theorem handleToolCall_http_failure_witness :
    handleToolCall (some "http://127.0.0.1:63342/api")
        (.httpReply 500 (.ok ⟨some "ignored", none⟩)) =
      .ok ⟨some "Response failed: 500", true⟩ :=
  handleToolCall_http_failure (some "http://127.0.0.1:63342/api") 500
    (.ok ⟨some "ignored", none⟩) rfl (by decide)

/-! ## Claims about the Change Detector (C3, C4) -/

/-- C3: transitions of the change detector on a successful tool-listing
probe: the very first payload is stored with no notification; a payload equal
to the stored one is stored back unchanged with no notification; a payload
differing from the stored one overwrites it and notifies exactly once. -/
theorem testListTools_change_detection (prev : Option String) (status : Nat)
    (body : String) (hs : res_ok status = true) :
    (testListTools prev (.reply status body)).works = true ∧
    (testListTools prev (.reply status body)).newPrev = some body ∧
    (prev = none → (testListTools prev (.reply status body)).notifications = 0) ∧
    (prev = some body → (testListTools prev (.reply status body)).notifications = 0) ∧
    (∀ p, prev = some p → p ≠ body →
      (testListTools prev (.reply status body)).notifications = 1) := by
  cases prev with
  | none => simp [testListTools, hs]
  | some p =>
    by_cases h : p = body
    · subst h; simp [testListTools, hs]
    · simp [testListTools, hs, h]

theorem testListTools_change_detection_witness :
    (testListTools (some "A") (.reply 200 "B")).works = true ∧
    (testListTools (some "A") (.reply 200 "B")).newPrev = some "B" ∧
    (testListTools (some "A") (.reply 200 "B")).notifications = 1 :=
  have h := testListTools_change_detection (some "A") 200 "B" (by decide)
  ⟨h.1, h.2.1, h.2.2.2.2 "A" rfl (by decide)⟩

/-- C4 counterexample: for the payload `P1 = ""` the claim fails.  Probe `""`
successfully, then fail a full scan (which sets `previousResponse = ""`),
then probe `""` again: the recovered payload equals the failure sentinel, so
**no** notification fires. -/
theorem failure_recovery_empty_payload_no_notify :
    (testListTools
        (findWorkingIDEEndpoint none (fun _ => .thrown .nonError)
          ((testListTools none (.reply 200 "")).newPrev)).prev
        (.reply 200 "")).notifications = 0 := by
  rfl

/-- Exhausting the scan with every probe failing sets `previousResponse = ""`
(line 119), emits no notification, throws the range message, and has probed
every port in order. -/
theorem scanPorts_all_fail (net : String → FetchOutcome) (ports : List Nat)
    (prev : Option String)
    (h : ∀ q ∈ ports, fetchOk (net (endpointOf (toString q))) = false) :
    scanPorts net ports prev =
      ⟨.error "No working IDE endpoint found in range 63342-63352", some "", 0,
        [], ports⟩ := by
  induction ports generalizing prev with
  | nil => rfl
  | cons q rest ih =>
    have hq : fetchOk (net (endpointOf (toString q))) = false := h q (by simp)
    have hrest : ∀ r ∈ rest, fetchOk (net (endpointOf (toString r))) = false :=
      fun r hr => h r (by simp [hr])
    simp [scanPorts, testListTools_fail prev _ hq, ih prev hrest]

/-- C4 (amended): for every **non-empty** payload `P1`, probe-success with
`P1`, then a full scan failure, then probe-success with `P1` again triggers a
notification: the failure resets the baseline to `""`, which differs from any
non-empty `P1`.  (For `P1 = ""` the recovered payload coincides with the
sentinel and no notification fires.) -/
theorem failure_then_recovery_notifies (P1 : String) (net : String → FetchOutcome)
    (prev0 : Option String) (s1 s2 : Nat) (hP1 : P1 ≠ "")
    (_hs1 : res_ok s1 = true) (hs2 : res_ok s2 = true)
    (hfail : ∀ q ∈ portRange, fetchOk (net (endpointOf (toString q))) = false) :
    (findWorkingIDEEndpoint none net
        ((testListTools prev0 (.reply s1 P1)).newPrev)).prev = some "" ∧
    (testListTools
        (findWorkingIDEEndpoint none net
          ((testListTools prev0 (.reply s1 P1)).newPrev)).prev
        (.reply s2 P1)).notifications = 1 := by
  have h1 : (findWorkingIDEEndpoint none net
      ((testListTools prev0 (.reply s1 P1)).newPrev)).prev = some "" := by
    simp only [findWorkingIDEEndpoint, jsTruthy, Bool.false_eq_true, if_false]
    rw [scanPorts_all_fail net portRange _ hfail]
  refine ⟨h1, ?_⟩
  rw [h1]
  simp [testListTools, hs2, Ne.symm hP1]

theorem failure_then_recovery_notifies_witness :
    (findWorkingIDEEndpoint none (fun _ => .thrown .nonError)
        ((testListTools none (.reply 200 "T")).newPrev)).prev = some "" ∧
    (testListTools
        (findWorkingIDEEndpoint none (fun _ => .thrown .nonError)
          ((testListTools none (.reply 200 "T")).newPrev)).prev
        (.reply 200 "T")).notifications = 1 :=
  failure_then_recovery_notifies "T" (fun _ => .thrown .nonError) none 200 200
    (by decide) (by decide) (by decide) (fun _ _ => rfl)

/-! ## Claims about resolution-failure payload reset (C5) -/

/-- C5 counterexample: with `IDE_PORT` set and the probe failing, resolution
throws but `previousResponse` keeps its old value `some "X"` — it is **not**
reset to the empty sentinel (line 119 runs only in the scan branch). -/
theorem fixed_port_failure_keeps_payload :
    (findWorkingIDEEndpoint (some "9999") (fun _ => .thrown .nonError)
        (some "X")).prev = some "X" ∧
    (∃ e, (findWorkingIDEEndpoint (some "9999") (fun _ => .thrown .nonError)
        (some "X")).result = .error e) ∧
    (some "X" : Option String) ≠ some "" := by
  refine ⟨rfl, ⟨_, rfl⟩, by decide⟩

/-- C5 (amended): the stored payload is reset to the empty sentinel on a full
resolution failure only in the port-range-scan branch; when the fixed
`IDE_PORT` override is set and its probe fails, resolution throws with the
stored payload left unchanged. -/
theorem resolution_failure_payload_policy (idePort : Option String)
    (net : String → FetchOutcome) (prev : Option String) :
    (jsTruthy idePort = false →
      (∀ q ∈ portRange, fetchOk (net (endpointOf (toString q))) = false) →
      (findWorkingIDEEndpoint idePort net prev).prev = some "" ∧
      ∃ e, (findWorkingIDEEndpoint idePort net prev).result = .error e) ∧
    (jsTruthy idePort = true →
      fetchOk (net (endpointOf (idePort.getD ""))) = false →
      (findWorkingIDEEndpoint idePort net prev).prev = prev ∧
      ∃ e, (findWorkingIDEEndpoint idePort net prev).result = .error e) := by
  constructor
  · intro h hfail
    simp only [findWorkingIDEEndpoint, h, Bool.false_eq_true, if_false]
    rw [scanPorts_all_fail net portRange prev hfail]
    exact ⟨rfl, _, rfl⟩
  · intro h hprobe
    simp only [findWorkingIDEEndpoint, h, if_true]
    rw [testListTools_fail prev _ hprobe]
    exact ⟨rfl, _, rfl⟩

theorem resolution_failure_payload_policy_witness :
    ((findWorkingIDEEndpoint none (fun _ => .thrown .nonError)
        (some "X")).prev = some "" ∧
      ∃ e, (findWorkingIDEEndpoint none (fun _ => .thrown .nonError)
        (some "X")).result = .error e) ∧
    ((findWorkingIDEEndpoint (some "9998") (fun _ => .thrown .nonError)
        (some "X")).prev = some "X" ∧
      ∃ e, (findWorkingIDEEndpoint (some "9998") (fun _ => .thrown .nonError)
        (some "X")).result = .error e) :=
  ⟨(resolution_failure_payload_policy none (fun _ => .thrown .nonError)
      (some "X")).1 rfl (fun _ _ => rfl),
   (resolution_failure_payload_policy (some "9998") (fun _ => .thrown .nonError)
      (some "X")).2 rfl rfl⟩

/-! ## Claims about the Endpoint Resolver (C6, C7) -/

/-- Scanning a port list that splits as `pre ++ p :: post`, with every port in
`pre` failing and `p` succeeding, stops at `p`: it returns `p`'s endpoint and
probes exactly `pre ++ [p]`. -/
theorem scanPorts_first_success (net : String → FetchOutcome) (pre : List Nat)
    (p : Nat) (post : List Nat) (prev : Option String)
    (hpre : ∀ q ∈ pre, fetchOk (net (endpointOf (toString q))) = false)
    (hp : fetchOk (net (endpointOf (toString p))) = true) :
    scanPorts net (pre ++ p :: post) prev =
      ⟨.ok (endpointOf (toString p)),
        (testListTools prev (net (endpointOf (toString p)))).newPrev,
        (testListTools prev (net (endpointOf (toString p)))).notifications,
        [], pre ++ [p]⟩ := by
  induction pre generalizing prev with
  | nil =>
    have hw : (testListTools prev (net (endpointOf (toString p)))).works = true := by
      rw [testListTools_works]; exact hp
    simp [scanPorts, hw]
  | cons q rest ih =>
    have hq : fetchOk (net (endpointOf (toString q))) = false := hpre q (by simp)
    have hrest : ∀ r ∈ rest, fetchOk (net (endpointOf (toString r))) = false :=
      fun r hr => hpre r (by simp [hr])
    simp [scanPorts, testListTools_fail prev _ hq, ih prev hrest]

/-- C6: with no fixed port configured and exactly one port `p` of the range
63342..63352 answering 2xx, resolution returns `p`'s endpoint — wherever `p`
sits in the range — and never probes any port beyond `p`. -/
theorem scan_returns_unique_success (idePort : Option String)
    (net : String → FetchOutcome) (prev : Option String) (p : Nat)
    (hide : jsTruthy idePort = false) (hmem : p ∈ portRange)
    (hp : fetchOk (net (endpointOf (toString p))) = true)
    (huniq : ∀ q ∈ portRange, q ≠ p → fetchOk (net (endpointOf (toString q))) = false) :
    (findWorkingIDEEndpoint idePort net prev).result = .ok (endpointOf (toString p)) ∧
    ∀ q ∈ (findWorkingIDEEndpoint idePort net prev).probedScan, q ≤ p := by
  have hfind : findWorkingIDEEndpoint idePort net prev = scanPorts net portRange prev := by
    simp [findWorkingIDEEndpoint, hide]
  obtain ⟨pre, post, hdec⟩ := List.append_of_mem hmem
  have hnd : portRange.Nodup := by decide
  have hsort : List.Pairwise (· < ·) portRange := by decide
  rw [hdec] at hnd hsort
  have hdisj := (List.nodup_append.mp hnd).2.2
  have hpre_ne : ∀ q ∈ pre, q ≠ p := by
    intro q hq hqp
    exact hdisj hq (hqp ▸ List.mem_cons_self p post)
  have hpre_lt : ∀ q ∈ pre, q < p :=
    fun q hq => (List.pairwise_append.mp hsort).2.2 q hq p (List.mem_cons_self p post)
  have hpre_fail : ∀ q ∈ pre, fetchOk (net (endpointOf (toString q))) = false :=
    fun q hq => huniq q (hdec ▸ List.mem_append_left _ hq) (hpre_ne q hq)
  have hscan := scanPorts_first_success net pre p post prev hpre_fail hp
  rw [hfind, hdec, hscan]
  refine ⟨rfl, ?_⟩
  intro q hq
  rcases List.mem_append.mp hq with h | h
  · exact le_of_lt (hpre_lt q h)
  · simp only [List.mem_singleton] at h
    exact le_of_eq h

theorem scan_returns_unique_success_witness :
    (findWorkingIDEEndpoint none
        (fun ep => if ep = endpointOf "63345" then .reply 200 "tools"
          else .reply 404 "") none).result = .ok (endpointOf (toString 63345)) ∧
    ∀ q ∈ (findWorkingIDEEndpoint none
        (fun ep => if ep = endpointOf "63345" then .reply 200 "tools"
          else .reply 404 "") none).probedScan, q ≤ 63345 :=
  scan_returns_unique_success none
    (fun ep => if ep = endpointOf "63345" then .reply 200 "tools"
      else .reply 404 "") none 63345 rfl (by decide) (by decide) (by decide)

/-- C7: with a (truthy) fixed `IDE_PORT`, resolution probes exactly the one
candidate built from it, never touches the scan range, returns that endpoint
on probe success, and on probe failure throws a message naming the port. -/
theorem fixed_port_resolution (p : String) (net : String → FetchOutcome)
    (prev : Option String) (hp : p ≠ "") :
    (findWorkingIDEEndpoint (some p) net prev).probedFixed = [p] ∧
    (findWorkingIDEEndpoint (some p) net prev).probedScan = [] ∧
    (fetchOk (net (endpointOf p)) = true →
      (findWorkingIDEEndpoint (some p) net prev).result = .ok (endpointOf p)) ∧
    (fetchOk (net (endpointOf p)) = false →
      (findWorkingIDEEndpoint (some p) net prev).result =
        .error ("Specified IDE_PORT=" ++ p ++ " but it is not responding correctly.")) := by
  have ht : jsTruthy (some p) = true := by simp [jsTruthy, hp]
  have hworks := testListTools_works prev (net (endpointOf p))
  refine ⟨?_, ?_, ?_, ?_⟩
  · cases hw : (testListTools prev (net (endpointOf p))).works <;>
      simp [findWorkingIDEEndpoint, ht, hw]
  · cases hw : (testListTools prev (net (endpointOf p))).works <;>
      simp [findWorkingIDEEndpoint, ht, hw]
  · intro h
    have hw : (testListTools prev (net (endpointOf p))).works = true := by
      rw [hworks]; exact h
    simp [findWorkingIDEEndpoint, ht, hw]
  · intro h
    have hw : (testListTools prev (net (endpointOf p))).works = false := by
      rw [hworks]; exact h
    simp [findWorkingIDEEndpoint, ht, hw]

theorem fixed_port_resolution_witness :
    (findWorkingIDEEndpoint (some "8080") (fun _ => .reply 200 "ok")
      none).probedFixed = ["8080"] ∧
    (findWorkingIDEEndpoint (some "8080") (fun _ => .reply 200 "ok")
      none).probedScan = [] ∧
    (findWorkingIDEEndpoint (some "8080") (fun _ => .reply 200 "ok")
      none).result = .ok (endpointOf "8080") :=
  have h := fixed_port_resolution "8080" (fun _ => .reply 200 "ok") none (by decide)
  ⟨h.1, h.2.1, h.2.2.1 (by decide)⟩

/-! ## Claim about the Endpoint Cache refresh (C10) -/

/-- C10: when resolution throws during a refresh, `updateIDEEndpoint` catches
the error (the model is a total function — it always returns normally) and the
cached endpoint is exactly what it was before the refresh. -/
theorem updateIDEEndpoint_keeps_cached (idePort : Option String)
    (net : String → FetchOutcome) (st : ProxyState) (e : String)
    (h : (findWorkingIDEEndpoint idePort net st.previousResponse).result = .error e) :
    (updateIDEEndpoint idePort net st).1.cachedEndpoint = st.cachedEndpoint := by
  simp [updateIDEEndpoint, h]

theorem updateIDEEndpoint_keeps_cached_witness :
    (updateIDEEndpoint none (fun _ => .thrown .nonError)
      ⟨some "http://127.0.0.1:63342/api", some "T"⟩).1.cachedEndpoint =
      some "http://127.0.0.1:63342/api" :=
  updateIDEEndpoint_keeps_cached none (fun _ => .thrown .nonError)
    ⟨some "http://127.0.0.1:63342/api", some "T"⟩
    "No working IDE endpoint found in range 63342-63352" rfl

end McpJetbrains
